import Mathlib

/-! Verification of the userscale autoscaler decision core (src/scaler/main.py).

The module-level environment configuration is modelled as an explicit
`Config` record; Python floats are modelled as exact rationals, Python ints
as `ℤ`.  Stateful objects (`EWMASignal`, `ScalingController`) are modelled
by explicit state passing, with `time.time()` passed in as a `now`
argument.  Network telemetry is modelled by the already-parsed per-pod
outcome: `none` for a pod that is unreachable, times out, or returns a
malformed or non-success response, `some m` for a pod whose `/metrics`
payload parsed to `m`.
-/

/-- Environment-derived configuration of src/scaler/main.py, lines 18-35. -/
structure Config where
  ALPHA : ℚ
  MIN_REPLICAS : ℤ
  MAX_REPLICAS : ℤ
  USERS_TARGET_PER_POD : ℤ
  CPU_TARGET : ℚ
  GPU_TARGET : ℚ
  LATENCY_TARGET_MS : ℚ
  SCALE_UP_STEP : ℤ
  SCALE_DOWN_STEP : ℤ
  COOLDOWN_PERIOD : ℤ

/-- The default values of the environment variables (lines 25-34). -/
def defaultConfig : Config :=
  { ALPHA := 3/5
    MIN_REPLICAS := 1
    MAX_REPLICAS := 20
    USERS_TARGET_PER_POD := 10
    CPU_TARGET := 50
    GPU_TARGET := 60
    LATENCY_TARGET_MS := 200
    SCALE_UP_STEP := 2
    SCALE_DOWN_STEP := 1
    COOLDOWN_PERIOD := 30 }

/-- Python `int(x)` on a float: truncation toward zero, on exact rationals. -/
def pyInt (q : ℚ) : ℤ :=
  if q < 0 then Int.ceil q else Int.floor q

/-- State of class `EWMASignal` (lines 42-52): a smoothing factor and the
current value, `none` until the first observation. -/
structure EWMASignal where
  alpha : ℚ
  value : Option ℚ

/-- `EWMASignal.update` (lines 47-52), returning the smoothed value together
with the successor state. -/
def EWMASignal.update (st : EWMASignal) (x : ℚ) : ℚ × EWMASignal :=
  match st.value with
  | none => (x, { st with value := some x })
  | some v =>
      (st.alpha * x + (1 - st.alpha) * v,
       { st with value := some (st.alpha * x + (1 - st.alpha) * v) })

/-- State of class `ScalingController` (lines 55-60). -/
structure ScalingState where
  last_scale_time : ℚ
  scale_direction : ℤ
  consecutive_scales : ℤ

/-- `ScalingController.__init__` (lines 57-60). -/
def ScalingState.start : ScalingState :=
  { last_scale_time := 0, scale_direction := 0, consecutive_scales := 0 }

/-- `ScalingController.can_scale` (lines 62-80), with `time.time()` passed
in as `now`; returns the boolean answer together with the (mutated) state. -/
def can_scale (cfg : Config) (st : ScalingState) (now : ℚ) (direction : ℤ) :
    Bool × ScalingState :=
  if now - st.last_scale_time < (cfg.COOLDOWN_PERIOD : ℚ) then
    (false, st)
  else
    let st1 :=
      if direction ≠ st.scale_direction then
        { st with consecutive_scales := 0, scale_direction := direction }
      else st
    if direction ≠ st1.scale_direction then
      (true, st1)
    else
      (decide (st1.consecutive_scales < 3), st1)

/-- `ScalingController.record_scale` (lines 82-86), with `time.time()`
passed in as `now`. -/
def record_scale (st : ScalingState) (now : ℚ) (direction : ℤ) : ScalingState :=
  { st with
      last_scale_time := now
      scale_direction := direction
      consecutive_scales := st.consecutive_scales + 1 }

/-- `compute_desired_by_users` (lines 175-178). -/
def compute_desired_by_users (cfg : Config) (total_users : ℤ) (replicas : ℤ) : ℤ :=
  max (Int.ceil ((total_users : ℚ) / ((max cfg.USERS_TARGET_PER_POD 1 : ℤ) : ℚ)))
    cfg.MIN_REPLICAS

/-- `compute_desired_by_latency` (lines 181-194). -/
def compute_desired_by_latency (cfg : Config) (avg_latency_ms target_latency_ms : ℚ)
    (replicas : ℤ) : ℤ :=
  if target_latency_ms ≤ 0 ∨ avg_latency_ms ≤ 0 then replicas
  else if avg_latency_ms > target_latency_ms * (3/2) then
    min (replicas * 2) cfg.MAX_REPLICAS
  else if avg_latency_ms > target_latency_ms then
    min (replicas + 1) cfg.MAX_REPLICAS
  else if avg_latency_ms < target_latency_ms * (1/2) then
    max (replicas - 1) cfg.MIN_REPLICAS
  else replicas

/-- `compute_desired_by_util` (lines 197-214). -/
def compute_desired_by_util (cfg : Config) (avg_util target : ℚ) (replicas : ℤ) : ℤ :=
  if target ≤ 0 then replicas
  else if avg_util / target > 6/5 then min (replicas * 2) cfg.MAX_REPLICAS
  else if avg_util / target > 21/20 then min (replicas + 2) cfg.MAX_REPLICAS
  else if avg_util / target > 1 then min (replicas + 1) cfg.MAX_REPLICAS
  else if avg_util / target < 1/2 then max (replicas - 1) cfg.MIN_REPLICAS
  else if avg_util / target < 7/10 then max (replicas - 1) cfg.MIN_REPLICAS
  else replicas

/-- `clamp_step` (lines 217-222). -/
def clamp_step (cfg : Config) (current desired : ℤ) : ℤ :=
  if desired > current then min (current + cfg.SCALE_UP_STEP) desired
  else if desired < current then max (current - cfg.SCALE_DOWN_STEP) desired
  else current

/-- Parsed `/metrics` payload of one pod, as read by the scaler:
`active_users` and `cpu_percent` (lines 120-121) and the
`latency_ms_p50.matrix` figure (line 146). -/
structure PodMetrics where
  active_users : ℤ
  cpu_percent : ℚ
  matrix_latency : ℚ

/-- `get_users_and_cpu` (lines 108-125): the per-pod loop sums
`active_users` and collects `cpu_percent` over the pods whose request
succeeds (`none` pods are skipped by the `continue`/`except` paths), then
averages the collected list, defaulting to 0 when it is empty. -/
def get_users_and_cpu (pods : List (Option PodMetrics)) : ℤ × ℚ :=
  let acc := pods.foldl
    (fun acc p =>
      match p with
      | none => acc
      | some m => (acc.1 + m.active_users, acc.2 ++ [m.cpu_percent]))
    ((0 : ℤ), ([] : List ℚ))
  (acc.1, if acc.2.length = 0 then 0 else acc.2.sum / (acc.2.length : ℚ))

/-- `get_avg_latency` (lines 128-154): the per-pod loop accumulates
`matrix_latency` and a count only over reachable pods whose reading is
positive, then divides the total by `max pod_count 1`. -/
def get_avg_latency (pods : List (Option PodMetrics)) : ℚ :=
  let acc := pods.foldl
    (fun acc p =>
      match p with
      | none => acc
      | some m =>
          if m.matrix_latency > 0 then (acc.1 + m.matrix_latency, acc.2 + 1)
          else acc)
    ((0 : ℚ), (0 : ℕ))
  acc.1 / ((max acc.2 1 : ℕ) : ℚ)

/-- Spec-worded latency average, for comparison with `get_avg_latency`:
"Average `cpu_percent` and latency across reachable replicas" — the latency
average taken over all reachable replicas, defaulting to 0 when none is
reachable. -/
def avg_latency_over_reachable (pods : List (Option PodMetrics)) : ℚ :=
  let ls := (pods.filterMap id).map PodMetrics.matrix_latency
  if ls.length = 0 then 0 else ls.sum / (ls.length : ℚ)

/-- The four EWMA instances created in `main` (lines 230-233). -/
structure SmootherState where
  user_ewma : EWMASignal
  cpu_ewma : EWMASignal
  gpu_ewma : EWMASignal
  latency_ewma : EWMASignal

/-- The per-cycle observations feeding one decision (lines 243-247):
current replica count, summed users, averaged CPU, averaged latency, and
the optional GPU utilization (`none` when `query_gpu_util` yields nothing). -/
structure CycleInput where
  current : ℤ
  total_users : ℤ
  avg_cpu : ℚ
  avg_latency : ℚ
  gpu_util : Option ℚ

/-- The decision part of one `main`-loop cycle (lines 249-274): smooth every
present signal, compute the per-signal candidates, fuse them by maximum,
clamp to the replica bounds, and derive the scale direction.  Returns the
clamped desired count, the direction, and the updated smoother states. -/
def cycle_decision (cfg : Config) (st : SmootherState) (inp : CycleInput) :
    ℤ × ℤ × SmootherState :=
  let us := st.user_ewma.update (inp.total_users : ℚ)
  let cs := st.cpu_ewma.update inp.avg_cpu
  let ls := st.latency_ewma.update inp.avg_latency
  let gs : Option ℚ × EWMASignal :=
    match inp.gpu_util with
    | some g => (some (st.gpu_ewma.update g).1, (st.gpu_ewma.update g).2)
    | none => (none, st.gpu_ewma)
  let desired_u := compute_desired_by_users cfg (pyInt us.1) inp.current
  let desired_c := compute_desired_by_util cfg cs.1 cfg.CPU_TARGET inp.current
  let desired_l := compute_desired_by_latency cfg ls.1 cfg.LATENCY_TARGET_MS inp.current
  let d0 := max (max desired_u desired_c) desired_l
  let d1 :=
    match gs.1 with
    | some g_smooth => max d0 (compute_desired_by_util cfg g_smooth cfg.GPU_TARGET inp.current)
    | none => d0
  let desired := max cfg.MIN_REPLICAS (min d1 cfg.MAX_REPLICAS)
  let dir : ℤ := if desired > inp.current then 1
    else if desired < inp.current then -1 else 0
  (desired, dir,
   { user_ewma := us.2, cpu_ewma := cs.2, gpu_ewma := gs.2, latency_ewma := ls.2 })

/-- C1: for positive step sizes, `clamp_step current desired` moves from
`current` toward `desired` by at most `SCALE_UP_STEP` upward or
`SCALE_DOWN_STEP` downward, never overshoots `desired`, never moves in the
wrong direction, and is `current` exactly when `desired = current`. -/
theorem clamp_step_spec (cfg : Config) (current desired : ℤ)
    (hup : 0 < cfg.SCALE_UP_STEP) (hdown : 0 < cfg.SCALE_DOWN_STEP) :
    (current < desired →
      current < clamp_step cfg current desired ∧
      clamp_step cfg current desired ≤ desired ∧
      clamp_step cfg current desired - current ≤ cfg.SCALE_UP_STEP) ∧
    (desired < current →
      clamp_step cfg current desired < current ∧
      desired ≤ clamp_step cfg current desired ∧
      current - clamp_step cfg current desired ≤ cfg.SCALE_DOWN_STEP) ∧
    (desired = current → clamp_step cfg current desired = current) := by
  unfold clamp_step
  split_ifs with h1 h2 <;> omega

/-- C1 witness: at the default configuration, scaling from 2 toward 10 obeys
all three clauses of `clamp_step_spec`. -/
theorem clamp_step_spec_witness :
    ((2 : ℤ) < 10 →
      (2 : ℤ) < clamp_step defaultConfig 2 10 ∧
      clamp_step defaultConfig 2 10 ≤ 10 ∧
      clamp_step defaultConfig 2 10 - 2 ≤ defaultConfig.SCALE_UP_STEP) ∧
    ((10 : ℤ) < 2 →
      clamp_step defaultConfig 2 10 < 2 ∧
      (10 : ℤ) ≤ clamp_step defaultConfig 2 10 ∧
      2 - clamp_step defaultConfig 2 10 ≤ defaultConfig.SCALE_DOWN_STEP) ∧
    ((10 : ℤ) = 2 → clamp_step defaultConfig 2 10 = 2) :=
  clamp_step_spec defaultConfig 2 10 (by decide) (by decide)

/-- C7: the first `EWMASignal.update` call returns its input and seeds the
stored value with it; every later call with prior value `v` returns and
stores `alpha * x + (1 - alpha) * v`. -/
theorem ewma_update_spec (st : EWMASignal) (x v : ℚ) :
    (st.value = none →
      st.update x = (x, { st with value := some x })) ∧
    (st.value = some v →
      st.update x = (st.alpha * x + (1 - st.alpha) * v,
        { st with value := some (st.alpha * x + (1 - st.alpha) * v) })) := by
  constructor
  · intro h
    simp [EWMASignal.update, h]
  · intro h
    simp [EWMASignal.update, h]

/-- C7 witness: a fresh smoother with `alpha = 3/5` seeds on 10, and a
seeded one at value 10 smooths input 20 to 16. -/
theorem ewma_update_spec_witness :
    EWMASignal.update { alpha := 3/5, value := none } 10 =
      (10, { alpha := 3/5, value := some 10 }) ∧
    EWMASignal.update { alpha := 3/5, value := some 10 } 20 =
      (16, { alpha := 3/5, value := some 16 }) := by
  constructor
  · exact (ewma_update_spec { alpha := 3/5, value := none } 10 0).1 rfl
  · have h := (ewma_update_spec { alpha := 3/5, value := some 10 } 20 10).2 rfl
    rw [h]
    norm_num

/-- C4: once a scale is recorded at time `t`, any `can_scale` request at a
time `now` with `now - t < COOLDOWN_PERIOD` answers `false`, whatever its
direction — so no two applied scales can be less than the cooldown apart. -/
theorem cooldown_blocks (cfg : Config) (st : ScalingState) (t now : ℚ)
    (d d2 : ℤ) (h : now - t < (cfg.COOLDOWN_PERIOD : ℚ)) :
    (can_scale cfg (record_scale st t d) now d2).1 = false := by
  unfold can_scale record_scale
  simp only [if_pos h]

/-- C4 witness: after a scale recorded at time 0, a request 10 seconds later
(cooldown 30) in the opposite direction is blocked. -/
theorem cooldown_blocks_witness :
    (can_scale defaultConfig (record_scale ScalingState.start 0 1) 10 (-1)).1
      = false :=
  cooldown_blocks defaultConfig ScalingState.start 0 10 1 (-1) (by norm_num [defaultConfig])

/-- C5: outside the cooldown window, a `can_scale` request in the stored
direction is refused once `consecutive_scales` has reached 3 (the fourth
consecutive same-direction scale), while a request in a different direction
resets the streak to 0, stores the new direction, and is granted. -/
theorem streak_gate_spec (cfg : Config) (st : ScalingState) (now : ℚ) (d : ℤ)
    (hcool : ¬ now - st.last_scale_time < (cfg.COOLDOWN_PERIOD : ℚ)) :
    (d = st.scale_direction → st.consecutive_scales = 3 →
      (can_scale cfg st now d).1 = false) ∧
    (d ≠ st.scale_direction →
      (can_scale cfg st now d).1 = true ∧
      (can_scale cfg st now d).2.consecutive_scales = 0 ∧
      (can_scale cfg st now d).2.scale_direction = d) := by
  constructor
  · intro hd h3
    simp [can_scale, if_neg hcool, hd, h3]
  · intro hd
    simp [can_scale, if_neg hcool, hd]

/-- C5 witness: with cooldown elapsed, a state holding a 3-long up-streak
refuses a fourth up request, and grants a down request while resetting the
streak and storing the new direction. -/
theorem streak_gate_spec_witness :
    (can_scale defaultConfig
      { last_scale_time := 0, scale_direction := 1, consecutive_scales := 3 }
      40 1).1 = false ∧
    (can_scale defaultConfig
      { last_scale_time := 0, scale_direction := 1, consecutive_scales := 3 }
      40 (-1)).1 = true ∧
    (can_scale defaultConfig
      { last_scale_time := 0, scale_direction := 1, consecutive_scales := 3 }
      40 (-1)).2.consecutive_scales = 0 ∧
    (can_scale defaultConfig
      { last_scale_time := 0, scale_direction := 1, consecutive_scales := 3 }
      40 (-1)).2.scale_direction = -1 :=
  ⟨(streak_gate_spec defaultConfig
      { last_scale_time := 0, scale_direction := 1, consecutive_scales := 3 }
      40 1 (by norm_num [defaultConfig])).1 rfl rfl,
   (streak_gate_spec defaultConfig
      { last_scale_time := 0, scale_direction := 1, consecutive_scales := 3 }
      40 (-1) (by norm_num [defaultConfig])).2 (by decide)⟩

/-- C10: a `can_scale` call inside the cooldown window answers `false` and
returns the state entirely unchanged (no direction update, no streak
reset); a call outside the cooldown with a direction different from the
stored one answers `true` and returns the state with the direction
overwritten and the streak reset to 0, even though no scale has been
applied. -/
theorem can_scale_frame (cfg : Config) (st : ScalingState) (now : ℚ) (d : ℤ) :
    (now - st.last_scale_time < (cfg.COOLDOWN_PERIOD : ℚ) →
      can_scale cfg st now d = (false, st)) ∧
    (¬ now - st.last_scale_time < (cfg.COOLDOWN_PERIOD : ℚ) →
      d ≠ st.scale_direction →
      can_scale cfg st now d =
        (true, { st with scale_direction := d, consecutive_scales := 0 })) := by
  constructor
  · intro h
    simp [can_scale, if_pos h]
  · intro h hd
    simp [can_scale, if_neg h, hd]

/-- C10 witness: during cooldown a reversal request leaves the streak state
untouched; outside cooldown the same reversal request rewrites direction
and streak before any scale is applied. -/
theorem can_scale_frame_witness :
    can_scale defaultConfig
      { last_scale_time := 0, scale_direction := 1, consecutive_scales := 2 }
      10 (-1) =
      (false, { last_scale_time := 0, scale_direction := 1, consecutive_scales := 2 }) ∧
    can_scale defaultConfig
      { last_scale_time := 0, scale_direction := 1, consecutive_scales := 2 }
      40 (-1) =
      (true, { last_scale_time := 0, scale_direction := -1, consecutive_scales := 0 }) :=
  ⟨(can_scale_frame defaultConfig
      { last_scale_time := 0, scale_direction := 1, consecutive_scales := 2 }
      10 (-1)).1 (by norm_num [defaultConfig]),
   (can_scale_frame defaultConfig
      { last_scale_time := 0, scale_direction := 1, consecutive_scales := 2 }
      40 (-1)).2 (by norm_num [defaultConfig]) (by decide)⟩

/-- C6: with a users-per-pod target of at least 1, `compute_desired_by_users`
returns `max ⌈total_users / USERS_TARGET_PER_POD⌉ MIN_REPLICAS`, is monotone
non-decreasing in the user count, and never falls below `MIN_REPLICAS`. -/
theorem compute_desired_by_users_spec (cfg : Config) (u u1 u2 current : ℤ)
    (hper : 1 ≤ cfg.USERS_TARGET_PER_POD) (hu : 0 ≤ u) (h12 : u1 ≤ u2) :
    compute_desired_by_users cfg u current =
      max (Int.ceil ((u : ℚ) / (cfg.USERS_TARGET_PER_POD : ℚ))) cfg.MIN_REPLICAS ∧
    compute_desired_by_users cfg u1 current ≤ compute_desired_by_users cfg u2 current ∧
    cfg.MIN_REPLICAS ≤ compute_desired_by_users cfg u current := by
  have hmax : max cfg.USERS_TARGET_PER_POD 1 = cfg.USERS_TARGET_PER_POD :=
    max_eq_left hper
  have hpos : (0 : ℚ) < ((max cfg.USERS_TARGET_PER_POD 1 : ℤ) : ℚ) := by
    have : (0 : ℤ) < max cfg.USERS_TARGET_PER_POD 1 := by omega
    exact_mod_cast this
  refine ⟨by rw [compute_desired_by_users, hmax], ?_, le_max_right _ _⟩
  have hdiv : ((u1 : ℚ) / ((max cfg.USERS_TARGET_PER_POD 1 : ℤ) : ℚ)) ≤
      ((u2 : ℚ) / ((max cfg.USERS_TARGET_PER_POD 1 : ℤ) : ℚ)) :=
    (div_le_div_iff_of_pos_right hpos).mpr (by exact_mod_cast h12)
  exact max_le_max (Int.ceil_mono hdiv) le_rfl

/-- C6 witness: at the default configuration, 120 users against a
per-pod target of 10 yield `max ⌈120/10⌉ 1 = 12`, monotone between 30 and
120 users, and at least `MIN_REPLICAS`. -/
theorem compute_desired_by_users_spec_witness :
    compute_desired_by_users defaultConfig 120 2 =
      max (Int.ceil ((120 : ℚ) / (defaultConfig.USERS_TARGET_PER_POD : ℚ)))
        defaultConfig.MIN_REPLICAS ∧
    compute_desired_by_users defaultConfig 30 2 ≤
      compute_desired_by_users defaultConfig 120 2 ∧
    defaultConfig.MIN_REPLICAS ≤ compute_desired_by_users defaultConfig 120 2 :=
  compute_desired_by_users_spec defaultConfig 120 30 120 2 (by decide) (by decide)
    (by decide)

/-- C9: the candidate functions are total with respect to division:
`compute_desired_by_util` returns `replicas` whenever `target ≤ 0`,
`compute_desired_by_latency` returns `replicas` whenever either the latency
target or the averaged latency is ≤ 0, and the divisor used by
`compute_desired_by_users` is `max USERS_TARGET_PER_POD 1 ≥ 1`, so even a
zero (or negative) configured per-pod target makes it divide by 1,
yielding `max total_users MIN_REPLICAS`. -/
theorem division_guards (cfg : Config) (avg target lat ltarget : ℚ) (r u : ℤ) :
    (target ≤ 0 → compute_desired_by_util cfg avg target r = r) ∧
    (ltarget ≤ 0 ∨ lat ≤ 0 → compute_desired_by_latency cfg lat ltarget r = r) ∧
    (1 : ℤ) ≤ max cfg.USERS_TARGET_PER_POD 1 ∧
    (cfg.USERS_TARGET_PER_POD ≤ 0 →
      compute_desired_by_users cfg u r = max u cfg.MIN_REPLICAS) := by
  refine ⟨fun h => by simp [compute_desired_by_util, if_pos h],
    fun h => by simp [compute_desired_by_latency, if_pos h],
    le_max_right _ _, fun h => ?_⟩
  have hmax : max cfg.USERS_TARGET_PER_POD 1 = 1 := max_eq_right (by omega)
  rw [compute_desired_by_users, hmax]
  norm_num

/-- C9 witness: with a configuration whose targets are all zero, each
candidate function still answers (returning the current count, and
`max u MIN` for the users candidate). -/
theorem division_guards_witness :
    ((0 : ℚ) ≤ 0 →
      compute_desired_by_util
        { defaultConfig with CPU_TARGET := 0 } 35 0 4 = 4) ∧
    ((0 : ℚ) ≤ 0 ∨ (120 : ℚ) ≤ 0 →
      compute_desired_by_latency
        { defaultConfig with LATENCY_TARGET_MS := 0 } 120 0 4 = 4) ∧
    (1 : ℤ) ≤ max ({ defaultConfig with USERS_TARGET_PER_POD := 0 } : Config).USERS_TARGET_PER_POD 1 ∧
    (({ defaultConfig with USERS_TARGET_PER_POD := 0 } : Config).USERS_TARGET_PER_POD ≤ 0 →
      compute_desired_by_users { defaultConfig with USERS_TARGET_PER_POD := 0 } 7 4 =
        max 7 ({ defaultConfig with USERS_TARGET_PER_POD := 0 } : Config).MIN_REPLICAS) :=
  division_guards { defaultConfig with USERS_TARGET_PER_POD := 0 } 35 0 120 0 4 7

/-- C3 counterexample: at the default configuration the ratio 50/50 = 1 lies
in the dead band, and `compute_desired_by_util` with `current = 21` returns
21, which exceeds `MAX_REPLICAS = 20` — so the claim that the result never
exceeds `MAX_REPLICAS` for every integer `current` is false; symmetrically
it can return a value below `MIN_REPLICAS` (current 0, ratio 2 gives 0). -/
theorem compute_desired_by_util_counterexample :
    (7/10 : ℚ) ≤ 50 / 50 ∧ (50 : ℚ) / 50 ≤ 1 ∧ (0 : ℚ) < 50 ∧
    ¬ compute_desired_by_util defaultConfig 50 50 21 ≤ defaultConfig.MAX_REPLICAS ∧
    ¬ defaultConfig.MIN_REPLICAS ≤ compute_desired_by_util defaultConfig 100 50 0 := by
  refine ⟨by norm_num, by norm_num, by norm_num, ?_, ?_⟩ <;>
    norm_num [compute_desired_by_util, defaultConfig]

/-- C3 (amended): for a positive target and a current count already inside
the configured band `0 ≤ MIN_REPLICAS ≤ current ≤ MAX_REPLICAS`, the result
of `compute_desired_by_util` stays within `[MIN_REPLICAS, MAX_REPLICAS]`,
and whenever the ratio lies in the dead band `0.7 ≤ avg/target ≤ 1.0` the
result is exactly `current`. -/
theorem compute_desired_by_util_spec (cfg : Config) (avg target : ℚ)
    (current : ℤ) (ht : 0 < target) (h0 : 0 ≤ cfg.MIN_REPLICAS)
    (hlo : cfg.MIN_REPLICAS ≤ current) (hhi : current ≤ cfg.MAX_REPLICAS) :
    cfg.MIN_REPLICAS ≤ compute_desired_by_util cfg avg target current ∧
    compute_desired_by_util cfg avg target current ≤ cfg.MAX_REPLICAS ∧
    (7/10 ≤ avg / target → avg / target ≤ 1 →
      compute_desired_by_util cfg avg target current = current) := by
  unfold compute_desired_by_util
  split_ifs with h1 h2 h3 h4 h5 h6
  · exact absurd h1 (not_le.mpr ht)
  · exact ⟨le_min (by omega) (by omega), min_le_right _ _,
      fun ha hb => absurd h2 (by simp only [not_lt]; linarith)⟩
  · exact ⟨le_min (by omega) (by omega), min_le_right _ _,
      fun ha hb => absurd h3 (by simp only [not_lt]; linarith)⟩
  · exact ⟨le_min (by omega) (by omega), min_le_right _ _,
      fun ha hb => absurd h4 (by simp only [not_lt]; linarith)⟩
  · exact ⟨le_max_right _ _, max_le (by omega) (by omega),
      fun ha hb => absurd h5 (by simp only [not_lt]; linarith)⟩
  · exact ⟨le_max_right _ _, max_le (by omega) (by omega),
      fun ha hb => absurd h6 (by simp only [not_lt]; linarith)⟩
  · exact ⟨hlo, hhi, fun ha hb => rfl⟩

/-- C3 witness: at the default configuration with `current = 5` inside the
replica band and the dead-band ratio 40/50 = 0.8, the bounds hold and the
result is exactly 5. -/
theorem compute_desired_by_util_spec_witness :
    defaultConfig.MIN_REPLICAS ≤ compute_desired_by_util defaultConfig 40 50 5 ∧
    compute_desired_by_util defaultConfig 40 50 5 ≤ defaultConfig.MAX_REPLICAS ∧
    ((7/10 : ℚ) ≤ 40 / 50 → (40 : ℚ) / 50 ≤ 1 →
      compute_desired_by_util defaultConfig 40 50 5 = 5) :=
  compute_desired_by_util_spec defaultConfig 40 50 5 (by norm_num)
    (by decide) (by decide) (by decide)

/-- C2: in every cycle the fused desired count equals the maximum of the
users-, CPU- and latency-candidates (each computed from its own smoothed
signal), joined by the GPU candidate exactly when the GPU reading is
present, and is clamped to `[MIN_REPLICAS, MAX_REPLICAS]` before the
direction comparison with `current`; when the GPU reading is absent the GPU
EWMA state is left untouched and no GPU candidate enters the maximum. -/
theorem cycle_decision_fuses_max (cfg : Config) (st : SmootherState)
    (inp : CycleInput) :
    (inp.gpu_util = none →
      (cycle_decision cfg st inp).1 =
        max cfg.MIN_REPLICAS (min
          (max (max
            (compute_desired_by_users cfg
              (pyInt (st.user_ewma.update (inp.total_users : ℚ)).1) inp.current)
            (compute_desired_by_util cfg
              (st.cpu_ewma.update inp.avg_cpu).1 cfg.CPU_TARGET inp.current))
            (compute_desired_by_latency cfg
              (st.latency_ewma.update inp.avg_latency).1 cfg.LATENCY_TARGET_MS
              inp.current))
          cfg.MAX_REPLICAS) ∧
      (cycle_decision cfg st inp).2.2.gpu_ewma = st.gpu_ewma) ∧
    (∀ g, inp.gpu_util = some g →
      (cycle_decision cfg st inp).1 =
        max cfg.MIN_REPLICAS (min
          (max (max (max
            (compute_desired_by_users cfg
              (pyInt (st.user_ewma.update (inp.total_users : ℚ)).1) inp.current)
            (compute_desired_by_util cfg
              (st.cpu_ewma.update inp.avg_cpu).1 cfg.CPU_TARGET inp.current))
            (compute_desired_by_latency cfg
              (st.latency_ewma.update inp.avg_latency).1 cfg.LATENCY_TARGET_MS
              inp.current))
            (compute_desired_by_util cfg
              (st.gpu_ewma.update g).1 cfg.GPU_TARGET inp.current))
          cfg.MAX_REPLICAS) ∧
      (cycle_decision cfg st inp).2.2.gpu_ewma = (st.gpu_ewma.update g).2) ∧
    (cycle_decision cfg st inp).2.1 =
      (if (cycle_decision cfg st inp).1 > inp.current then 1
       else if (cycle_decision cfg st inp).1 < inp.current then -1 else 0) := by
  refine ⟨fun hg => ?_, fun g hg => ?_, ?_⟩
  · constructor <;> simp [cycle_decision, hg]
  · constructor <;> simp [cycle_decision, hg]
  · cases hg : inp.gpu_util <;> simp [cycle_decision, hg]

/-- Four freshly-constructed smoothers as in `main` lines 230-233. -/
def startSmoother : SmootherState :=
  { user_ewma := { alpha := defaultConfig.ALPHA, value := none }
    cpu_ewma := { alpha := defaultConfig.ALPHA, value := none }
    gpu_ewma := { alpha := defaultConfig.ALPHA, value := none }
    latency_ewma := { alpha := defaultConfig.ALPHA, value := none }
    }

/-- C2 witness: on a first cycle with 120 users, current count 2 and no GPU
reading, the decision is the clamped three-way maximum and the GPU EWMA is
untouched; with a GPU reading of 80 the GPU EWMA advances. -/
theorem cycle_decision_fuses_max_witness :
    ((cycle_decision defaultConfig startSmoother
        { current := 2, total_users := 120, avg_cpu := 0, avg_latency := 0,
          gpu_util := none }).1 =
      max defaultConfig.MIN_REPLICAS (min
        (max (max
          (compute_desired_by_users defaultConfig
            (pyInt (startSmoother.user_ewma.update ((120 : ℤ) : ℚ)).1) 2)
          (compute_desired_by_util defaultConfig
            (startSmoother.cpu_ewma.update 0).1 defaultConfig.CPU_TARGET 2))
          (compute_desired_by_latency defaultConfig
            (startSmoother.latency_ewma.update 0).1
            defaultConfig.LATENCY_TARGET_MS 2))
        defaultConfig.MAX_REPLICAS)) ∧
    ((cycle_decision defaultConfig startSmoother
        { current := 2, total_users := 120, avg_cpu := 0, avg_latency := 0,
          gpu_util := none }).2.2.gpu_ewma = startSmoother.gpu_ewma) ∧
    ((cycle_decision defaultConfig startSmoother
        { current := 2, total_users := 120, avg_cpu := 0, avg_latency := 0,
          gpu_util := some 80 }).2.2.gpu_ewma =
      (startSmoother.gpu_ewma.update 80).2) :=
  ⟨((cycle_decision_fuses_max defaultConfig startSmoother
      { current := 2, total_users := 120, avg_cpu := 0, avg_latency := 0,
        gpu_util := none }).1 rfl).1,
   ((cycle_decision_fuses_max defaultConfig startSmoother
      { current := 2, total_users := 120, avg_cpu := 0, avg_latency := 0,
        gpu_util := none }).1 rfl).2,
   (((cycle_decision_fuses_max defaultConfig startSmoother
      { current := 2, total_users := 120, avg_cpu := 0, avg_latency := 0,
        gpu_util := some 80 }).2.1) 80 rfl).2⟩

/-- The per-pod loop of `get_users_and_cpu`, characterized: starting from any
accumulator it adds the users of the reachable pods and appends their CPU
readings, in order. -/
lemma users_cpu_foldl_eq (pods : List (Option PodMetrics)) (t : ℤ) (cs : List ℚ) :
    pods.foldl
      (fun acc p =>
        match p with
        | none => acc
        | some m => (acc.1 + m.active_users, acc.2 ++ [m.cpu_percent]))
      (t, cs) =
    (t + ((pods.filterMap id).map PodMetrics.active_users).sum,
     cs ++ (pods.filterMap id).map PodMetrics.cpu_percent) := by
  induction pods generalizing t cs with
  | nil => simp
  | cons p rest ih =>
    cases p with
    | none => simpa using ih t cs
    | some m =>
      have hfm : (some m :: rest).filterMap id = m :: rest.filterMap id := rfl
      simp only [List.foldl_cons, ih, hfm, List.map_cons, List.sum_cons,
        List.append_assoc, List.singleton_append, Prod.mk.injEq]
      exact ⟨by ring, trivial⟩

/-- The per-pod loop of `get_avg_latency`, characterized: starting from any
accumulator it adds the positive latency readings of the reachable pods and
counts them. -/
lemma latency_foldl_eq (pods : List (Option PodMetrics)) (t : ℚ) (c : ℕ) :
    pods.foldl
      (fun acc p =>
        match p with
        | none => acc
        | some m =>
            if m.matrix_latency > 0 then (acc.1 + m.matrix_latency, acc.2 + 1)
            else acc)
      (t, c) =
    (t + (((pods.filterMap id).map PodMetrics.matrix_latency).filter
            (fun x => decide (x > 0))).sum,
     c + (((pods.filterMap id).map PodMetrics.matrix_latency).filter
            (fun x => decide (x > 0))).length) := by
  induction pods generalizing t c with
  | nil => simp
  | cons p rest ih =>
    cases p with
    | none => simpa using ih t c
    | some m =>
      have hfm : (some m :: rest).filterMap id = m :: rest.filterMap id := rfl
      by_cases hm : m.matrix_latency > 0
      · simp only [List.foldl_cons, if_pos hm, ih, hfm, List.map_cons,
          List.filter_cons, decide_eq_true_eq, hm, if_true, List.sum_cons,
          List.length_cons, Prod.mk.injEq]
        exact ⟨by ring, by omega⟩
      · simp only [List.foldl_cons, if_neg hm, ih, hfm, List.map_cons,
          List.filter_cons, decide_eq_true_eq, hm, if_false]

/-- C8 counterexample: with two reachable pods reporting matrix latencies 0
and 100, `get_avg_latency` returns 100, not the 50 that an average over all
reachable replicas (`avg_latency_over_reachable`, following the words of the spec) would
give: a reachable pod whose latency reading is not positive is excluded
from the latency average. -/
theorem get_avg_latency_counterexample :
    get_avg_latency
      [some { active_users := 0, cpu_percent := 0, matrix_latency := 0 },
       some { active_users := 0, cpu_percent := 0, matrix_latency := 100 }] = 100 ∧
    avg_latency_over_reachable
      [some { active_users := 0, cpu_percent := 0, matrix_latency := 0 },
       some { active_users := 0, cpu_percent := 0, matrix_latency := 100 }] = 50 ∧
    (100 : ℚ) ≠ 50 := by
  refine ⟨?_, ?_, by norm_num⟩
  · norm_num [get_avg_latency, List.foldl]
  · norm_num [avg_latency_over_reachable, List.filterMap]

/-- C8 (amended): a pod that is unreachable or yields a malformed or
non-success response contributes nothing to any aggregate; the users
aggregate is the sum over reachable pods and CPU is averaged over reachable
pods (0 when none is reachable); the latency aggregate averages only over
the reachable pods whose matrix-latency reading is positive (0 when there
is no such pod), so a reachable pod reporting a non-positive latency is
also excluded from the latency average. -/
theorem telemetry_aggregation (pods : List (Option PodMetrics)) :
    (get_users_and_cpu pods).1 =
      ((pods.filterMap id).map PodMetrics.active_users).sum ∧
    (pods.filterMap id ≠ [] →
      (get_users_and_cpu pods).2 =
        ((pods.filterMap id).map PodMetrics.cpu_percent).sum /
          ((pods.filterMap id).length : ℚ)) ∧
    (pods.filterMap id = [] → (get_users_and_cpu pods).2 = 0) ∧
    (((pods.filterMap id).map PodMetrics.matrix_latency).filter
        (fun x => decide (x > 0)) ≠ [] →
      get_avg_latency pods =
        (((pods.filterMap id).map PodMetrics.matrix_latency).filter
          (fun x => decide (x > 0))).sum /
        ((((pods.filterMap id).map PodMetrics.matrix_latency).filter
          (fun x => decide (x > 0))).length : ℚ)) ∧
    (((pods.filterMap id).map PodMetrics.matrix_latency).filter
        (fun x => decide (x > 0)) = [] →
      get_avg_latency pods = 0) ∧
    get_users_and_cpu (none :: pods) = get_users_and_cpu pods ∧
    get_avg_latency (none :: pods) = get_avg_latency pods := by
  have hu := users_cpu_foldl_eq pods 0 []
  have hl := latency_foldl_eq pods 0 0
  refine ⟨?_, ?_, ?_, ?_, ?_, ?_, ?_⟩
  · simp [get_users_and_cpu, hu]
  · intro hne
    have hlen : ((pods.filterMap id).map PodMetrics.cpu_percent).length =
        (pods.filterMap id).length := List.length_map _ _
    simp only [get_users_and_cpu, hu, List.nil_append, zero_add]
    rw [if_neg (by simp [hlen, List.length_eq_zero, hne])]
    rw [hlen]
  · intro hnil
    simp [get_users_and_cpu, hu, hnil]
  · intro hne
    simp only [get_avg_latency, hl, zero_add]
    have hlen : (((pods.filterMap id).map PodMetrics.matrix_latency).filter
        (fun x => decide (x > 0))).length ≠ 0 := by
      simpa [List.length_eq_zero] using hne
    rw [max_eq_left (by omega)]
  · intro hnil
    simp only [get_avg_latency, hl, hnil, zero_add]
    simp
  · rfl
  · rfl

/-- The two-reachable, one-unreachable pod sample used as the C8 witness. -/
def podsEx : List (Option PodMetrics) :=
  [some { active_users := 7, cpu_percent := 50, matrix_latency := 100 },
   none,
   some { active_users := 5, cpu_percent := 30, matrix_latency := 200 }]

/-- C8 witness: on `podsEx` the users sum over the two reachable pods, CPU
and latency average over them, and a leading unreachable pod changes
nothing. -/
theorem telemetry_aggregation_witness :
    (get_users_and_cpu podsEx).1 =
      ((podsEx.filterMap id).map PodMetrics.active_users).sum ∧
    (get_users_and_cpu podsEx).2 =
      ((podsEx.filterMap id).map PodMetrics.cpu_percent).sum /
        ((podsEx.filterMap id).length : ℚ) ∧
    get_avg_latency podsEx =
      (((podsEx.filterMap id).map PodMetrics.matrix_latency).filter
        (fun x => decide (x > 0))).sum /
      ((((podsEx.filterMap id).map PodMetrics.matrix_latency).filter
        (fun x => decide (x > 0))).length : ℚ) ∧
    get_users_and_cpu (none :: podsEx) = get_users_and_cpu podsEx :=
  ⟨(telemetry_aggregation podsEx).1,
   (telemetry_aggregation podsEx).2.1 (by simp [podsEx]),
   (telemetry_aggregation podsEx).2.2.2.1
     (by norm_num [podsEx, List.filterMap, List.filter]; decide),
   (telemetry_aggregation podsEx).2.2.2.2.2.1⟩
